import Mathlib

/-!
Verification of `samples/PythonWXPython/main.py` (velopack wxPython sample).

The file is a thin GUI wrapper: a `BufferedLogHandler` (append-and-drain
in-memory queue), a `MainFrame` with three buttons bound to three handlers,
a 5 ms poll timer that drains the log buffer into a text control, and a
background daemon thread for the blocking download call.

The embedding below translates that source directly:
* `BufferedLogHandler` with `emit` / `get_messages` (lines 8-22);
* `LogRecord` / `formatRecord` embed the formatter
  `'- %(levelname)s - %(message)s'` installed by `setup_logging` (line 167);
* `initSteps` is the line-by-line trace of `MainFrame.__init__` (lines 39-67);
* the handlers `on_check`, `on_download`, `on_apply` and the download
  thread's marshalled continuations, each returning the new frame state and
  the list of side effects (SDK calls, thread spawns, `wx.CallAfter` posts);
* `step` / `run`: the UI event loop as a transition system, where the
  download thread's `wx.CallAfter` posts arrive as serialized events;
* `velopackCallSites`: the syntactic list of every invocation of the
  `velopack` module in the program, with its source line.
-/

/-- Severity levels used by the program (`logging.info/warning/error`). -/
inductive LogLevel where
  | info
  | warning
  | error
deriving DecidableEq, Repr

/-- `%(levelname)s` of each level, as the Python `logging` module renders it. -/
def LogLevel.levelname : LogLevel → String
  | .info => "INFO"
  | .warning => "WARNING"
  | .error => "ERROR"

/-- A log record: the level and the message string. -/
structure LogRecord where
  level : LogLevel
  message : String
deriving DecidableEq, Repr

/-- The formatter installed by `setup_logging` (main.py line 167):
`'- %(levelname)s - %(message)s'`. -/
def formatRecord (r : LogRecord) : String :=
  "- " ++ r.level.levelname ++ " - " ++ r.message

/-- `BufferedLogHandler` (main.py lines 8-22): its state is the list
`self.buffer`. -/
structure BufferedLogHandler where
  buffer : List String
deriving DecidableEq, Repr

/-- `BufferedLogHandler.emit` (lines 14-16): format the record and append the
result to the end of the buffer. -/
def BufferedLogHandler.emit (h : BufferedLogHandler) (r : LogRecord) :
    BufferedLogHandler :=
  { buffer := h.buffer ++ [formatRecord r] }

/-- `BufferedLogHandler.get_messages` (lines 18-22): return a copy of the
buffer and clear it. -/
def BufferedLogHandler.get_messages (h : BufferedLogHandler) :
    List String × BufferedLogHandler :=
  (h.buffer, { buffer := [] })

/-- Folding `emit` over a record list appends the formatted records in order. -/
theorem BufferedLogHandler.foldl_emit (rs : List LogRecord)
    (h : BufferedLogHandler) :
    (rs.foldl BufferedLogHandler.emit h).buffer
      = h.buffer ++ rs.map formatRecord := by
  induction rs generalizing h with
  | nil => simp
  | cons r rs ih =>
    simp [List.foldl_cons, ih, BufferedLogHandler.emit]

/-- C1: the buffered log handler is an append-and-drain queue. `emit` appends
the formatted message at the end of the buffer; starting from the state left
by any drain, after any sequence of emits `get_messages` returns exactly the
formatted messages in emission order and leaves the buffer empty. -/
theorem c1_buffered_log_handler_append_and_drain :
    (∀ (h : BufferedLogHandler) (r : LogRecord),
      (h.emit r).buffer = h.buffer ++ [formatRecord r]) ∧
    (∀ (h : BufferedLogHandler) (rs : List LogRecord),
      (rs.foldl BufferedLogHandler.emit h.get_messages.2).get_messages
        = (rs.map formatRecord, { buffer := [] })) := by
  refine ⟨fun h r => rfl, fun h rs => ?_⟩
  have hb := BufferedLogHandler.foldl_emit rs h.get_messages.2
  simp [BufferedLogHandler.get_messages] at hb ⊢
  exact hb

/-- C7: draining is exhaustive and idempotent: after one `get_messages`, a
second `get_messages` with no intervening `emit` returns the empty list. -/
theorem c7_get_messages_idempotent :
    ∀ h : BufferedLogHandler, (h.get_messages.2).get_messages.1 = [] :=
  fun _ => rfl

/-- The three buttons of `MainFrame`. -/
inductive ButtonId where
  | check
  | download
  | apply
deriving DecidableEq, Repr

/-- The event handlers of `MainFrame`. -/
inductive HandlerId where
  | on_check
  | on_download
  | on_apply
  | on_timer
deriving DecidableEq, Repr

/-- The velopack SDK entry points invoked by the program. -/
inductive VelopackApi where
  | updateManagerCtor
  | checkForUpdates
  | downloadUpdates
  | applyUpdatesAndRestart
  | appRun
deriving DecidableEq, Repr

/-- Every invocation of the `velopack` module in main.py, with its source
line: `velopack.UpdateManager(update_url)` (line 93),
`check_for_updates()` (line 97), `download_updates(...)` (line 129),
`apply_updates_and_restart(...)` (line 153), `velopack.App().run()`
(line 179). -/
def velopackCallSites : List (Nat × VelopackApi) :=
  [(93, .updateManagerCtor), (97, .checkForUpdates), (129, .downloadUpdates),
   (153, .applyUpdatesAndRestart), (179, .appRun)]

/-- The three SDK calls named by the spec: check, download-with-progress,
apply-and-restart. -/
def specThreeCalls : List VelopackApi :=
  [.checkForUpdates, .downloadUpdates, .applyUpdatesAndRestart]

/-- One statement of `MainFrame.__init__` (lines 28-67), restricted to the
widget/binding/timer/logging statements the claims are about. -/
inductive InitStep where
  | createButton (b : ButtonId) (label : String)
  | disableButton (b : ButtonId)
  | createLogText
  | bindButton (b : ButtonId) (h : HandlerId)
  | bindTimer (h : HandlerId)
  | startTimer (periodMs : Nat)
  | logInfo (msg : String)
deriving DecidableEq, Repr

/-- `MainFrame.__init__`, statement by statement (main.py lines 39-67):
create the three buttons, disable Download and Apply, create the log text
control, bind the three button handlers and the timer handler, start the
timer with a 5 ms period, and log the ready message. -/
def initSteps : List InitStep :=
  [.createButton .check "Check",
   .createButton .download "Download",
   .createButton .apply "Apply",
   .disableButton .download,
   .disableButton .apply,
   .createLogText,
   .bindButton .check .on_check,
   .bindButton .download .on_download,
   .bindButton .apply .on_apply,
   .bindTimer .on_timer,
   .startTimer 5,
   .logInfo "GUI initialized and ready"]

/-- The button-to-handler bindings made in `__init__` (lines 52-54). -/
def buttonBindings : List (ButtonId × HandlerId) :=
  initSteps.filterMap fun st =>
    match st with
    | .bindButton b h => some (b, h)
    | _ => none

/-- The buttons created in `__init__` (lines 39-41). -/
def createdButtons : List ButtonId :=
  initSteps.filterMap fun st =>
    match st with
    | .createButton b _ => some b
    | _ => none

/-- The timer periods passed to `wx.Timer.Start` in `__init__` (line 65). -/
def timerStarts : List Nat :=
  initSteps.filterMap fun st =>
    match st with
    | .startTimer p => some p
    | _ => none

/-- A wx button: enabled flag and label. -/
structure ButtonState where
  enabled : Bool
  label : String
deriving DecidableEq, Repr

/-- The mutable state of `MainFrame` that the handlers touch:
`self.update_manager` (abstracted to whether it is non-None),
`self.update_info`, the three buttons, whether a download thread is in
flight, the label captured by `download_thread` as `original_label`, and
the stream of messages logged so far. -/
structure FrameState where
  update_manager : Bool
  update_info : Option String
  check_btn : ButtonState
  download_btn : ButtonState
  apply_btn : ButtonState
  downloading : Bool
  saved_label : String
  log : List (LogLevel × String)
deriving DecidableEq, Repr

/-- Set the enabled flag of one button. -/
def FrameState.setEnabled (s : FrameState) (b : ButtonId) (e : Bool) :
    FrameState :=
  match b with
  | .check => { s with check_btn := { s.check_btn with enabled := e } }
  | .download => { s with download_btn := { s.download_btn with enabled := e } }
  | .apply => { s with apply_btn := { s.apply_btn with enabled := e } }

/-- Set the label of one button. -/
def FrameState.setLabel (s : FrameState) (b : ButtonId) (l : String) :
    FrameState :=
  match b with
  | .check => { s with check_btn := { s.check_btn with label := l } }
  | .download => { s with download_btn := { s.download_btn with label := l } }
  | .apply => { s with apply_btn := { s.apply_btn with label := l } }

/-- Append one logged message. -/
def FrameState.logMsg (s : FrameState) (lvl : LogLevel) (m : String) :
    FrameState :=
  { s with log := s.log ++ [(lvl, m)] }

/-- The frame state before `__init__` runs: nothing created, nothing stored.
A button not yet created is represented disabled with an empty label;
`wx.Button` creation enables it with its label. -/
def emptyFrameState : FrameState :=
  { update_manager := false
    update_info := none
    check_btn := { enabled := false, label := "" }
    download_btn := { enabled := false, label := "" }
    apply_btn := { enabled := false, label := "" }
    downloading := false
    saved_label := ""
    log := [] }

/-- Effect of one `__init__` statement on the frame state. -/
def applyInitStep (s : FrameState) : InitStep → FrameState
  | .createButton b label => (s.setEnabled b true).setLabel b label
  | .disableButton b => s.setEnabled b false
  | .createLogText => s
  | .bindButton _ _ => s
  | .bindTimer _ => s
  | .startTimer _ => s
  | .logInfo m => s.logMsg .info m

/-- The frame state after `__init__` (main.py lines 28-67). -/
def initState : FrameState :=
  initSteps.foldl applyInitStep emptyFrameState

/-- A UI action marshalled to the UI thread with `wx.CallAfter`. -/
inductive UIAction where
  | setLabel (b : ButtonId) (label : String)
  | enable (b : ButtonId)
  | logAt (lvl : LogLevel) (msg : String)
deriving DecidableEq, Repr

/-- A side effect a handler (or the download thread) performs besides
updating the frame state: an SDK call, a thread spawn, or a `wx.CallAfter`
post. -/
inductive Effect where
  | sdk (api : VelopackApi)
  | spawnThread (daemon : Bool)
  | callAfter (a : UIAction)
deriving DecidableEq, Repr

/-- Apply one marshalled UI action to the frame state. -/
def applyUIAction (s : FrameState) : UIAction → FrameState
  | .setLabel b l => s.setLabel b l
  | .enable b => s.setEnabled b true
  | .logAt lvl m => s.logMsg lvl m

/-- The label string built by `progress_callback` (main.py line 121):
`f"Downloading... {progress}%"`. -/
def progressLabel (p : Nat) : String :=
  "Downloading... " ++ toString p ++ "%"

/-- `progress_callback` (lines 119-121): post a `SetLabel` of the Download
button with the progress string to the UI thread. -/
def progress_callback (p : Nat) : UIAction :=
  .setLabel .download (progressLabel p)

/-- Outcome of one run of `on_check` (lines 91-107): the
`velopack.UpdateManager(update_url)` constructor raises (`ctorFail`),
`check_for_updates()` raises (uncaught in the source, `raised`), or it
returns an update-info object (`found`) or `None` (`notFound`). -/
inductive CheckOutcome where
  | ctorFail (e : String)
  | raised
  | found (info : String)
  | notFound
deriving DecidableEq, Repr

/-- `MainFrame.on_check` (lines 91-107): construct the update manager
(logging and returning on failure), store the result of
`check_for_updates()`, then enable Download and Apply if update info was
returned and disable them otherwise. Returns the new state and the effects
performed. -/
def on_check (s : FrameState) : CheckOutcome → FrameState × List Effect
  | .ctorFail e =>
      (s.logMsg .error ("Failed to initialize update manager: " ++ e),
       [.sdk .updateManagerCtor])
  | .raised =>
      ({ s with update_manager := true },
       [.sdk .updateManagerCtor, .sdk .checkForUpdates])
  | .found info =>
      ((({ s with update_manager := true, update_info := some info
           : FrameState }).logMsg .info
          ("Update available: " ++ info)).setEnabled .download true
          |>.setEnabled .apply true,
       [.sdk .updateManagerCtor, .sdk .checkForUpdates])
  | .notFound =>
      ((({ s with update_manager := true, update_info := none
           : FrameState }).logMsg .info
          "No updates available").setEnabled .download false
          |>.setEnabled .apply false,
       [.sdk .updateManagerCtor, .sdk .checkForUpdates])

/-- `MainFrame.on_download` (lines 110-145): if no update info is stored,
log a warning and return; otherwise disable Download and Apply, capture the
state read by the download thread, and start the daemon worker thread. The
thread body's effects are modelled by `download_thread_effects`. -/
def on_download (s : FrameState) : FrameState × List Effect :=
  match s.update_info with
  | none =>
      (s.logMsg .warning "No update information available. Please check first.",
       [])
  | some _ =>
      ({ (s.setEnabled .download false).setEnabled .apply false with
          downloading := true,
          saved_label := s.download_btn.label },
       [.spawnThread true])

/-- Outcome of the `download_updates` call inside `download_thread`. -/
inductive DownloadOutcome where
  | success
  | failure (e : String)
deriving DecidableEq, Repr

/-- The `wx.CallAfter` posts issued by `download_thread` after
`download_updates` returns (lines 131-135) or raises (lines 137-141):
restore the label (the captured `original_label` on success, `"Download"`
on error), enable both buttons, and log the result. -/
def download_tail_actions (saved_label : String) :
    DownloadOutcome → List UIAction
  | .success =>
      [.setLabel .download saved_label, .enable .download, .enable .apply,
       .logAt .info "Update downloaded successfully"]
  | .failure e =>
      [.setLabel .download "Download", .enable .download, .enable .apply,
       .logAt .error ("Failed to download update: " ++ e)]

/-- The full effect trace of one run of `download_thread` (lines 123-141):
the blocking `download_updates` SDK call, the progress posts issued by
`progress_callback` during it, then the tail posts. -/
def download_thread_effects (saved_label : String) (ps : List Nat)
    (o : DownloadOutcome) : List Effect :=
  .sdk .downloadUpdates
    :: (ps.map fun p => .callAfter (progress_callback p))
    ++ (download_tail_actions saved_label o).map .callAfter

/-- The state change when the download thread finishes and its tail
`wx.CallAfter` posts run on the UI thread; the in-flight flag drops. -/
def download_finish (s : FrameState) (o : DownloadOutcome) : FrameState :=
  { (download_tail_actions s.saved_label o).foldl applyUIAction s with
      downloading := false }

/-- Outcome of the `apply_updates_and_restart` call in `on_apply`. -/
inductive ApplyOutcome where
  | success
  | failure (e : String)
deriving DecidableEq, Repr

/-- `MainFrame.on_apply` (lines 147-156): if no update info is stored, log a
warning and return; otherwise call `apply_updates_and_restart` and log
success or failure. -/
def on_apply (s : FrameState) : ApplyOutcome → FrameState × List Effect
  | o =>
      match s.update_info with
      | none =>
          (s.logMsg .warning
            "No update information available. Please check first.", [])
      | some _ =>
          match o with
          | .success =>
              (s.logMsg .info "Update applied successfully",
               [.sdk .applyUpdatesAndRestart])
          | .failure e =>
              (s.logMsg .error ("Failed to apply update: " ++ e),
               [.sdk .applyUpdatesAndRestart])

/-- An event processed by the UI thread: a button click (with the outcome of
the SDK call it makes), or one of the download thread's marshalled posts.
`progress` and `downloadFinish` are `wx.CallAfter` continuations of the
in-flight download thread; when no download is in flight such events cannot
occur and are no-ops. -/
inductive Event where
  | check (o : CheckOutcome)
  | downloadClick
  | progress (p : Nat)
  | downloadFinish (o : DownloadOutcome)
  | applyClick (o : ApplyOutcome)
deriving DecidableEq, Repr

/-- One step of the UI event loop. -/
def step (s : FrameState) : Event → FrameState
  | .check o => (on_check s o).1
  | .downloadClick => (on_download s).1
  | .progress p => if s.downloading then applyUIAction s (progress_callback p) else s
  | .downloadFinish o => if s.downloading then download_finish s o else s
  | .applyClick o => (on_apply s o).1

/-- Run a sequence of events. -/
def run (s : FrameState) : List Event → FrameState
  | [] => s
  | e :: es => run (step s e) es

/-- The state touched by `on_timer`: the global `log_handler` and the text
held by the log text control. -/
structure UIState where
  handler : BufferedLogHandler
  log_text : String
deriving DecidableEq, Repr

/-- `MainFrame.on_timer` (main.py lines 69-73): drain `log_handler` and
append each drained message followed by `"\n"` to the text control. -/
def on_timer (s : UIState) : UIState :=
  let drained := s.handler.get_messages
  { handler := drained.2,
    log_text := drained.1.foldl (fun t m => t ++ m ++ "\n") s.log_text }

/-- `String.join` distributes over cons. -/
theorem string_join_cons (m : String) (rest : List String) :
    String.join (m :: rest) = m ++ String.join rest := by
  apply String.ext
  simp [String.join_eq, String.data_append]

/-- Left-folding appends of `m ++ "\n"` equals appending the joined
newline-terminated messages. -/
theorem foldl_append_newline (l : List String) (t : String) :
    l.foldl (fun t m => t ++ m ++ "\n") t
      = t ++ String.join (l.map fun m => m ++ "\n") := by
  induction l generalizing t with
  | nil => simp [String.join]
  | cons m rest ih =>
    rw [List.map_cons, string_join_cons, List.foldl_cons, ih]
    simp only [String.append_assoc]

/-- C3: the poll timer is started with a period of exactly 5 ms
(`self.timer.Start(5)`, line 65), and every tick of `on_timer` drains the
whole buffer and appends each drained message followed by a newline, in
order, to the log text control. -/
theorem c3_timer_period_and_drain :
    timerStarts = [5] ∧
    ∀ s : UIState,
      on_timer s
        = { handler := { buffer := [] },
            log_text :=
              s.log_text
                ++ String.join (s.handler.buffer.map fun m => m ++ "\n") } := by
  refine ⟨by decide, fun s => ?_⟩
  simp [on_timer, BufferedLogHandler.get_messages, foldl_append_newline]

/-- C4: `__init__` creates exactly three buttons and wires each to exactly
one handler: Check to `on_check`, Download to `on_download`, Apply to
`on_apply`. -/
theorem c4_three_buttons_one_handler_each :
    createdButtons = [.check, .download, .apply] ∧
    buttonBindings.length = 3 ∧
    (∀ b : ButtonId,
      (buttonBindings.filter fun p => p.1 = b).length = 1) ∧
    (.check, .on_check) ∈ buttonBindings ∧
    (.download, .on_download) ∈ buttonBindings ∧
    (.apply, .on_apply) ∈ buttonBindings := by
  refine ⟨by decide, by decide, ?_, by decide, by decide, by decide⟩
  intro b
  cases b <;> decide

/-- C2 counterexample: the program also invokes `velopack.App().run()`
(line 179), an invocation of the velopack library that is none of the three
calls named by the claim; the `velopack.UpdateManager(update_url)`
constructor call (line 93) is likewise a fourth invocation. -/
theorem c2_counterexample_app_run_call :
    (179, VelopackApi.appRun) ∈ velopackCallSites ∧
    VelopackApi.appRun ∉ specThreeCalls ∧
    (93, VelopackApi.updateManagerCtor) ∈ velopackCallSites ∧
    VelopackApi.updateManagerCtor ∉ specThreeCalls := by
  decide

/-- C2 amended: the velopack library is consumed through exactly five
invocations: the `UpdateManager` constructor, the three calls the spec
names (check, download-with-progress, apply-and-restart), and the
`velopack.App().run()` startup hook; each occurs at exactly one call site
and no other invocation occurs. -/
theorem c2_amended_five_call_sites :
    velopackCallSites.map Prod.snd
      = [.updateManagerCtor, .checkForUpdates, .downloadUpdates,
         .applyUpdatesAndRestart, .appRun] ∧
    (∀ api : VelopackApi,
      (velopackCallSites.filter fun c => c.2 = api).length = 1) ∧
    (∀ c ∈ velopackCallSites, c.2 ∈ specThreeCalls ∨
      c.2 = .updateManagerCtor ∨ c.2 = .appRun) := by
  refine ⟨by decide, fun api => ?_, by decide⟩
  cases api <;> decide

/-- C6: progress feedback goes through the single `progress_callback`: every
progress value `p` reported during a download produces exactly a marshalled
`SetLabel` of the Download button with the string `"Downloading... {p}%"`,
and processing it on the UI thread changes only that label. -/
theorem c6_progress_sets_download_label (s : FrameState) (p : Nat)
    (h : s.downloading = true) :
    progress_callback p
      = .setLabel .download ("Downloading... " ++ toString p ++ "%") ∧
    step s (.progress p)
      = s.setLabel .download ("Downloading... " ++ toString p ++ "%") := by
  refine ⟨rfl, ?_⟩
  simp [step, h, applyUIAction, progress_callback, progressLabel]

/-- Witness for C6 at `p = 42` on a downloading state. -/
theorem c6_progress_witness :
    ({ emptyFrameState with downloading := true } : FrameState).downloading
        = true ∧
    step { emptyFrameState with downloading := true } (.progress 42)
      = FrameState.setLabel { emptyFrameState with downloading := true }
          .download ("Downloading... " ++ toString 42 ++ "%") :=
  ⟨rfl,
    (c6_progress_sets_download_label
      { emptyFrameState with downloading := true } 42 rfl).2⟩

/-- C9: with `update_info` still `None`, both `on_download` and `on_apply`
log the warning `"No update information available. Please check first."` and
return: no SDK call, no thread spawn, and no change to any button or stored
state (only the log grows). -/
theorem c9_guard_without_update_info (s : FrameState) (o : ApplyOutcome)
    (h : s.update_info = none) :
    on_download s
      = (s.logMsg .warning "No update information available. Please check first.",
         []) ∧
    on_apply s o
      = (s.logMsg .warning "No update information available. Please check first.",
         []) ∧
    (on_download s).1.download_btn = s.download_btn ∧
    (on_download s).1.apply_btn = s.apply_btn ∧
    (on_download s).1.update_info = s.update_info ∧
    (on_apply s o).1.download_btn = s.download_btn ∧
    (on_apply s o).1.apply_btn = s.apply_btn ∧
    (on_apply s o).1.update_info = s.update_info := by
  refine ⟨?_, ?_, ?_, ?_, ?_, ?_, ?_, ?_⟩ <;>
    simp [on_download, on_apply, h, FrameState.logMsg]

/-- Witness for C9 on the post-`__init__` state (whose `update_info` is
`None`) with a `success` apply outcome. -/
theorem c9_guard_witness :
    initState.update_info = none ∧
    on_download initState
      = (initState.logMsg .warning
          "No update information available. Please check first.", []) ∧
    on_apply initState .success
      = (initState.logMsg .warning
          "No update information available. Please check first.", []) := by
  refine ⟨by decide, ?_, ?_⟩
  · exact (c9_guard_without_update_info initState .success (by decide)).1
  · exact (c9_guard_without_update_info initState .success (by decide)).2.1

/-- C10: whether `download_updates` returns or raises, the marshalled tail of
`download_thread` re-enables both buttons, restores the Download label (the
captured original label on success, `"Download"` on error), logs a success
or failure message, and the download stops being in flight. -/
theorem c10_download_thread_restores_ui (s : FrameState) (o : DownloadOutcome)
    (h : s.downloading = true) :
    (step s (.downloadFinish o)).download_btn.enabled = true ∧
    (step s (.downloadFinish o)).apply_btn.enabled = true ∧
    (step s (.downloadFinish o)).download_btn.label
      = (match o with
         | .success => s.saved_label
         | .failure _ => "Download") ∧
    (step s (.downloadFinish o)).log
      = s.log
          ++ [match o with
              | .success => (LogLevel.info, "Update downloaded successfully")
              | .failure e =>
                  (LogLevel.error, "Failed to download update: " ++ e)] ∧
    (step s (.downloadFinish o)).downloading = false := by
  cases o <;>
    simp [step, h, download_finish, download_tail_actions, applyUIAction,
      FrameState.setLabel, FrameState.setEnabled, FrameState.logMsg]

/-- Witness for C10 on a downloading state with a failure outcome. -/
theorem c10_download_thread_witness :
    ({ emptyFrameState with downloading := true } : FrameState).downloading
        = true ∧
    (step { emptyFrameState with downloading := true }
        (.downloadFinish (.failure "net"))).download_btn.enabled = true ∧
    (step { emptyFrameState with downloading := true }
        (.downloadFinish (.failure "net"))).download_btn.label = "Download" := by
  have h := c10_download_thread_restores_ui
    { emptyFrameState with downloading := true } (.failure "net") rfl
  exact ⟨rfl, h.1, h.2.2.1⟩

/-- C5: the only thread spawn in the program is the one daemon worker started
by `on_download` when update info is stored; the spawned thread's first
effect is the blocking `download_updates` SDK call; `on_download` itself
makes no SDK call; `on_check` and `on_apply` spawn no thread and perform
their SDK calls directly in the handler (hence on the UI thread). -/
theorem c5_single_daemon_worker_thread :
    (∀ s : FrameState,
      (on_download s).2
        = (match s.update_info with
           | none => []
           | some _ => [Effect.spawnThread true])) ∧
    (∀ (s : FrameState) (a : VelopackApi), Effect.sdk a ∉ (on_download s).2) ∧
    (∀ (sl : String) (ps : List Nat) (o : DownloadOutcome),
      (download_thread_effects sl ps o).head? = some (.sdk .downloadUpdates)) ∧
    (∀ (sl : String) (ps : List Nat) (o : DownloadOutcome) (d : Bool),
      Effect.spawnThread d ∉ download_thread_effects sl ps o) ∧
    (∀ (s : FrameState) (o : CheckOutcome) (d : Bool),
      Effect.spawnThread d ∉ (on_check s o).2) ∧
    (∀ (s : FrameState) (o : ApplyOutcome) (d : Bool),
      Effect.spawnThread d ∉ (on_apply s o).2) ∧
    (∀ (s : FrameState) (o : CheckOutcome),
      Effect.sdk .updateManagerCtor ∈ (on_check s o).2) ∧
    (∀ (s : FrameState) (o : ApplyOutcome), s.update_info.isSome →
      Effect.sdk .applyUpdatesAndRestart ∈ (on_apply s o).2) := by
  refine ⟨?_, ?_, ?_, ?_, ?_, ?_, ?_, ?_⟩
  · intro s
    cases h : s.update_info <;> simp [on_download, h]
  · intro s a
    cases h : s.update_info <;> simp [on_download, h]
  · intro sl ps o
    simp [download_thread_effects]
  · intro sl ps o d
    cases o <;>
      simp [download_thread_effects, download_tail_actions, progress_callback]
  · intro s o d
    cases o <;> simp [on_check]
  · intro s o d
    cases h : s.update_info <;> cases o <;> simp [on_apply, h]
  · intro s o
    cases o <;> simp [on_check]
  · intro s o h
    cases hi : s.update_info with
    | none => rw [hi] at h; simp at h
    | some i => cases o <;> simp [on_apply, hi]

/-- Witness for C5's hypothesis-bearing conjunct on a state holding update
info. -/
theorem c5_single_daemon_worker_witness :
    (({ emptyFrameState with update_info := some "1.2.3" }
        : FrameState).update_info).isSome = true ∧
    Effect.sdk .applyUpdatesAndRestart
      ∈ (on_apply { emptyFrameState with update_info := some "1.2.3" }
          .success).2 := by
  refine ⟨rfl, ?_⟩
  exact (c5_single_daemon_worker_thread).2.2.2.2.2.2.2
    { emptyFrameState with update_info := some "1.2.3" } .success rfl

/-- The claimed button invariant: Download or Apply enabled only when
`update_info` is non-None. -/
def buttonsInv (s : FrameState) : Bool :=
  !(s.download_btn.enabled || s.apply_btn.enabled) || s.update_info.isSome

/-- Strengthened invariant for the induction: the button invariant, and
while a download is in flight `update_info` is still set. -/
def auxInv (s : FrameState) : Bool :=
  buttonsInv s && (!s.downloading || s.update_info.isSome)

/-- `true` unless the event is a `check` click processed while a download is
in flight. -/
def eventCheckOk (s : FrameState) : Event → Bool
  | .check _ => !s.downloading
  | _ => true

/-- `true` when no `check` event of the sequence is processed while a
download is in flight. -/
def noCheckDuring (s : FrameState) : List Event → Bool
  | [] => true
  | e :: es => eventCheckOk s e && noCheckDuring (step s e) es

/-- One step preserves the strengthened invariant, provided a `check` event
is not processed while a download is in flight. -/
theorem auxInv_step (s : FrameState) (e : Event) (hInv : auxInv s = true)
    (hc : eventCheckOk s e = true) :
    auxInv (step s e) = true := by
  cases e with
  | check o =>
    have hd : s.downloading = false := by simpa [eventCheckOk] using hc
    cases o with
    | ctorFail e =>
      simpa [step, on_check, auxInv, buttonsInv, FrameState.logMsg] using hInv
    | raised =>
      simpa [step, on_check, auxInv, buttonsInv] using hInv
    | found info =>
      simp [step, on_check, auxInv, buttonsInv, FrameState.setEnabled,
        FrameState.logMsg]
    | notFound =>
      simp [step, on_check, auxInv, buttonsInv, FrameState.setEnabled,
        FrameState.logMsg, hd]
  | downloadClick =>
    cases hinfo : s.update_info with
    | none =>
      simpa [step, on_download, hinfo, auxInv, buttonsInv, FrameState.logMsg]
        using hInv
    | some i =>
      simp [step, on_download, hinfo, auxInv, buttonsInv,
        FrameState.setEnabled]
  | progress p =>
    cases hdl : s.downloading with
    | false => simpa [step, hdl] using hInv
    | true =>
      simpa [step, hdl, applyUIAction, progress_callback, FrameState.setLabel,
        auxInv, buttonsInv] using hInv
  | downloadFinish o =>
    cases hdl : s.downloading with
    | false => simpa [step, hdl] using hInv
    | true =>
      rw [auxInv, Bool.and_eq_true, hdl] at hInv
      have hsome : s.update_info.isSome = true := by
        simpa using hInv.2
      cases o with
      | success =>
        simp [step, hdl, download_finish, download_tail_actions, applyUIAction,
          FrameState.setLabel, FrameState.setEnabled, FrameState.logMsg,
          auxInv, buttonsInv, hsome]
      | failure e =>
        simp [step, hdl, download_finish, download_tail_actions, applyUIAction,
          FrameState.setLabel, FrameState.setEnabled, FrameState.logMsg,
          auxInv, buttonsInv, hsome]
  | applyClick o =>
    cases hinfo : s.update_info with
    | none =>
      simpa [step, on_apply, hinfo, auxInv, buttonsInv, FrameState.logMsg]
        using hInv
    | some i =>
      cases o with
      | success =>
        simp [step, on_apply, hinfo, auxInv, buttonsInv, FrameState.logMsg]
      | failure e =>
        simp [step, on_apply, hinfo, auxInv, buttonsInv, FrameState.logMsg]

/-- Running any event sequence with no check-while-downloading preserves the
strengthened invariant. -/
theorem auxInv_run (es : List Event) :
    ∀ s : FrameState, auxInv s = true → noCheckDuring s es = true →
      auxInv (run s es) = true := by
  induction es with
  | nil =>
    intro s h _
    simpa [run] using h
  | cons e es ih =>
    intro s h hnc
    rw [noCheckDuring, Bool.and_eq_true] at hnc
    exact ih (step s e) (auxInv_step s e h hnc.1) hnc.2

/-- C8 counterexample: the stated invariant fails under a realizable
interleaving. After a successful check, a download click, and a second check
that reports no update (processed while the download thread is still
running), the download thread's completion posts re-enable both buttons even
though `update_info` has become `None`. -/
theorem c8_counterexample_check_during_download :
    (run initState
      [.check (.found "1.0.1"), .downloadClick, .check .notFound,
       .downloadFinish .success]).download_btn.enabled = true ∧
    (run initState
      [.check (.found "1.0.1"), .downloadClick, .check .notFound,
       .downloadFinish .success]).apply_btn.enabled = true ∧
    (run initState
      [.check (.found "1.0.1"), .downloadClick, .check .notFound,
       .downloadFinish .success]).update_info = none := by
  decide

/-- C8 amended: both buttons start disabled after `__init__`; the check
handler enables them exactly when the check returns update information
(storing it) and disables them when it returns `None`; and in every event
sequence in which no check is processed while a download is in flight, the
Download and Apply buttons are enabled only when `update_info` is
non-`None`. -/
theorem c8_amended_buttons_require_update_info (es : List Event)
    (h : noCheckDuring initState es = true) :
    initState.download_btn.enabled = false ∧
    initState.apply_btn.enabled = false ∧
    (∀ (s : FrameState) (i : String),
      (on_check s (.found i)).1.download_btn.enabled = true ∧
      (on_check s (.found i)).1.apply_btn.enabled = true ∧
      (on_check s (.found i)).1.update_info = some i) ∧
    (∀ s : FrameState,
      (on_check s .notFound).1.download_btn.enabled = false ∧
      (on_check s .notFound).1.apply_btn.enabled = false ∧
      (on_check s .notFound).1.update_info = none) ∧
    ((run initState es).download_btn.enabled = true ∨
        (run initState es).apply_btn.enabled = true →
      (run initState es).update_info ≠ none) := by
  refine ⟨by decide, by decide, ?_, ?_, ?_⟩
  · intro s i
    refine ⟨?_, ?_, ?_⟩ <;>
      simp [on_check, FrameState.setEnabled, FrameState.logMsg]
  · intro s
    refine ⟨?_, ?_, ?_⟩ <;>
      simp [on_check, FrameState.setEnabled, FrameState.logMsg]
  · intro hen
    have hrun := auxInv_run es initState (by decide) h
    rw [auxInv, Bool.and_eq_true] at hrun
    have hb := hrun.1
    have hab : ((run initState es).download_btn.enabled
        || (run initState es).apply_btn.enabled) = true := by
      cases hen with
      | inl h1 => simp [h1]
      | inr h1 => simp [h1]
    rw [buttonsInv, hab] at hb
    simp only [Bool.not_true, Bool.false_or] at hb
    intro hnone
    rw [hnone] at hb
    simp at hb

/-- A well-behaved concrete trace: check finds an update, the user clicks
Download, and the download completes before anything else happens. -/
def c8WitnessTrace : List Event :=
  [.check (.found "2.0.0"), .downloadClick, .downloadFinish .success]

/-- Witness for C8's amended invariant on a concrete well-behaved trace. -/
theorem c8_amended_witness :
    noCheckDuring initState c8WitnessTrace = true ∧
    ((run initState c8WitnessTrace).download_btn.enabled = true ∨
      (run initState c8WitnessTrace).apply_btn.enabled = true →
      (run initState c8WitnessTrace).update_info ≠ none) := by
  refine ⟨by decide, ?_⟩
  exact (c8_amended_buttons_require_update_info c8WitnessTrace
    (by decide)).2.2.2.2
